import Mathlib

/-!
Verification of the hospital_tj review platform core: the data model
(Service prices, Hospital/Service average ranks, Rank attachment), the
validation routines in `our_service/models.py`, the rank-creation flow of
`api/views.py`, and the price filter of `api/filters.py`, shallowly
embedded as executable Lean definitions over a list-based database state.
-/

deriving instance DecidableEq for Except

namespace HospitalTJ

/-- Python `int(s)` for a decimal string: optional surrounding whitespace,
an optional sign, then a nonempty digit run in which single underscores may
separate digits.  `none` models the `ValueError` that `int` raises. -/
def isPyDigit (c : Char) : Bool := '0' ≤ c && c ≤ '9'

def pyDigitVal (c : Char) : Nat := c.toNat - '0'.toNat

def isPySpace (c : Char) : Bool :=
  c = ' ' || c = '\t' || c = '\n' || c = '\r' || c = '\x0b' || c = '\x0c'

def digitsLoop (acc : Nat) : List Char → Option Nat
  | [] => some acc
  | '_' :: c :: rest =>
      if isPyDigit c then digitsLoop (acc * 10 + pyDigitVal c) rest else none
  | c :: rest =>
      if isPyDigit c then digitsLoop (acc * 10 + pyDigitVal c) rest else none

def parseDigits : List Char → Option Nat
  | [] => none
  | '_' :: _ => none
  | c :: rest => if isPyDigit c then digitsLoop (pyDigitVal c) rest else none

def pyInt (s : String) : Option Int :=
  let cs := (s.data.dropWhile isPySpace).reverse.dropWhile isPySpace |>.reverse
  match cs with
  | '+' :: rest => (parseDigits rest).map Int.ofNat
  | '-' :: rest => (parseDigits rest).map (fun n => -(n : Int))
  | _ => (parseDigits cs).map Int.ofNat

/-- Row of the Service table (`our_service/models.py`, class `Service`):
the three price fields are `FloatField`s, modelled as rationals, and the
derived `average_rank`. -/
structure Service where
  id : Nat
  price : ℚ
  min_price : ℚ
  max_price : ℚ
  average_rank : ℚ
  deriving DecidableEq, Repr

/-- Predicate of the ORM query in `PriceFilter.filter_queryset`
(`api/filters.py` lines 24-29): fixed price inside the bound, or nonzero
`max_price` inside the bound. -/
def priceMatch (minB maxB : Int) (s : Service) : Bool :=
  (decide (s.price ≠ 0) && decide ((minB : ℚ) ≤ s.price) && decide (s.price ≤ (maxB : ℚ)))
  || (decide (s.max_price ≠ 0) && decide ((minB : ℚ) ≤ s.max_price)
        && decide (s.max_price ≤ (maxB : ℚ)))

/-- PriceFilter.filter_queryset (`api/filters.py` lines 14-30).  The two
query parameters arrive as optional raw strings; `int()` conversion may
raise, modelled by `Except.error`. -/
def filter_queryset (min_price max_price : Option String) (queryset : List Service) :
    Except String (List Service) :=
  match min_price, max_price with
  | some mn, some mx =>
      match pyInt mn with
      | none => .error ("invalid literal for int() with base 10: " ++ mn)
      | some minB =>
          match pyInt mx with
          | none => .error ("invalid literal for int() with base 10: " ++ mx)
          | some maxB =>
              if minB < 1 || maxB < minB then .ok queryset
              else .ok (queryset.filter (priceMatch minB maxB))
  | _, _ => .ok queryset

/-- Concrete service A(price=50, min=0, max=0) from the spec example. -/
def serviceA : Service := ⟨0, 50, 0, 0, 0⟩

/-- Concrete service B(price=0, min=10, max=60) from the spec example. -/
def serviceB : Service := ⟨1, 0, 10, 60, 0⟩

/-- Message of MinValueValidator(0) in PRICE_VALIDATORS. -/
def priceMinMsg : String := "Нарх ай нол майда намешава."

/-- Message of MaxValueValidator(100000) in PRICE_VALIDATORS. -/
def priceMaxMsg : String := "Ай 100000 зиёд? Навса бкап охи."

/-- Message of the all-three-zero check in Service.clean_fields. -/
def serviceNoPriceMsg : String :=
  "The price of the service did not determined. Choose one couple of fields: (price) or(min_price and max_price)."

/-- Message of the max_price < min_price check in Service.clean_fields. -/
def serviceMaxLtMinMsg : String :=
  "The \"max_price\" can not be less than \"min_price.\""

/-- Message of the exclusivity check in Service.clean_fields. -/
def serviceCoupleMsg : String :=
  "You can only choose between determining these couple of fields: (price) or (min_price and max_price)."

/-- Django super().clean_fields() run of PRICE_VALIDATORS over price,
min_price and max_price in field declaration order: first violated
validator's message, none when all three fields are in [0, 100000]. -/
def priceFieldErrors (price min_price max_price : ℚ) : Option String :=
  if price < 0 then some priceMinMsg
  else if 100000 < price then some priceMaxMsg
  else if min_price < 0 then some priceMinMsg
  else if 100000 < min_price then some priceMaxMsg
  else if max_price < 0 then some priceMinMsg
  else if 100000 < max_price then some priceMaxMsg
  else none

/-- Service.clean_fields (`our_service/models.py` lines 149-176):
field validators first, then the all-zero check, then the
max-below-min check (fixed-price off) or the exclusivity check
(fixed-price on). -/
def service_clean_fields (price min_price max_price : ℚ) : Except String Unit :=
  match priceFieldErrors price min_price max_price with
  | some m => .error m
  | none =>
      if price = 0 ∧ min_price = 0 ∧ max_price = 0 then .error serviceNoPriceMsg
      else if price = 0 then
        if max_price < min_price then .error serviceMaxLtMinMsg else .ok ()
      else
        if max_price ≠ 0 ∨ 0 < min_price then .error serviceCoupleMsg else .ok ()

/-- A price field value accepted by PRICE_VALIDATORS. -/
def inBounds (q : ℚ) : Prop := 0 ≤ q ∧ q ≤ 100000

/-- Message of the neither-set check in CommentRankBaseModel.clean_fields. -/
def neitherMsg : String :=
  "Fields \"service\" and \"hospital\" are empty. Please determine only one of them."

/-- Message of the both-set check in CommentRankBaseModel.clean_fields. -/
def bothMsg : String :=
  "You can not determine both fields \"service\" and \"hospital\". Please determine only one of them."

/-- CommentRankBaseModel.clean_fields (`our_service/models.py` lines
198-218): reject when service and hospital are both absent, then reject
when both are present. -/
def commentRank_clean_fields (service hospital : Option Nat) : Except String Unit :=
  if service = none ∧ hospital = none then .error neitherMsg
  else if service ≠ none ∧ hospital ≠ none then .error bothMsg
  else .ok ()

/-- Row of the Hospital table, reduced to the fields the rank ledger
touches: the primary key and the derived average_rank. -/
structure Hospital where
  id : Nat
  average_rank : ℚ
  deriving DecidableEq, Repr

/-- Row of the Rank table (`our_service/models.py`, class `Rank`): author,
the two nullable target references, and the integer value. -/
structure Rank where
  author : Nat
  service : Option Nat
  hospital : Option Nat
  value : Int
  deriving DecidableEq, Repr

/-- Database state: the three tables the rank flow reads and writes. -/
structure DB where
  services : List Service
  hospitals : List Hospital
  ranks : List Rank
  deriving DecidableEq, Repr

/-- A rank/comment target: one hospital or one service, as selected by the
nested route (`/services/{id}/ranks/` or `/hospitals/{slug}/ranks/`; no
path matches both). -/
inductive Target where
  | service (id : Nat)
  | hospital (id : Nat)
  deriving DecidableEq, Repr

/-- Whether a Rank row references the target, as in the ORM filters
`service__id=...` and `hospital__id=...` of Rank.save. -/
def matchesTarget (r : Rank) : Target → Bool
  | .service sid => r.service == some sid
  | .hospital hid => r.hospital == some hid

/-- All Rank rows of the target, as fetched by Rank.save lines 317-320. -/
def targetRanks (db : DB) (tgt : Target) : List Rank :=
  db.ranks.filter (fun r => matchesTarget r tgt)

/-- Whether the target row exists (Service.objects.get / get_object_or_404
succeed exactly when it does). -/
def targetExists (db : DB) : Target → Bool
  | .service sid => db.services.any (fun s => s.id == sid)
  | .hospital hid => db.hospitals.any (fun h => h.id == hid)

/-- The stored average_rank of the target row, none when the row is
missing. -/
def targetAverage (db : DB) : Target → Option ℚ
  | .service sid => (db.services.find? (fun s => s.id == sid)).map Service.average_rank
  | .hospital hid => (db.hospitals.find? (fun h => h.id == hid)).map Hospital.average_rank

/-- Nearest integer with ties to even, Python's round() on an exact
rational. -/
def roundHalfEven (q : ℚ) : ℤ :=
  if q - ⌊q⌋ < 1/2 then ⌊q⌋
  else if 1/2 < q - ⌊q⌋ then ⌊q⌋ + 1
  else if ⌊q⌋ % 2 = 0 then ⌊q⌋ else ⌊q⌋ + 1

/-- Python round(q, 1): one decimal place. -/
def pyRound1 (q : ℚ) : ℚ := (roundHalfEven (q * 10) : ℚ) / 10

/-- The average computed by Rank.save lines 321-325: round(sum/count, 1)
over the target's ranks, or 0.0 when the target has no ranks. -/
def recomputeValue (db : DB) (tgt : Target) : ℚ :=
  let all := targetRanks db tgt
  if all.length ≠ 0 then pyRound1 (((all.map Rank.value).sum : ℚ) / all.length) else 0

/-- Store an average on the target row (Rank.save lines 327-334: get the
row by id, set average_rank, save). -/
def writeAvg (db : DB) (tgt : Target) (avg : ℚ) : DB :=
  match tgt with
  | .service sid =>
      { db with services :=
          db.services.map (fun s => if s.id == sid then { s with average_rank := avg } else s) }
  | .hospital hid =>
      { db with hospitals :=
          db.hospitals.map (fun h => if h.id == hid then { h with average_rank := avg } else h) }

/-- RankLedger recompute (Rank.save lines 317-334): read the target's
ranks, compute the rounded average, write it back onto the target row.
`none` models the DoesNotExist exception when the target row is gone. -/
def recompute (db : DB) (tgt : Target) : Option DB :=
  if targetExists db tgt then some (writeAvg db tgt (recomputeValue db tgt)) else none

/-- The target a Rank row points at, following the `if self.service is not
None ... else ...` dispatch of Rank.save; `none` models the attribute
error on a row with neither reference. -/
def refTarget (r : Rank) : Option Target :=
  match r.service with
  | some sid => some (.service sid)
  | none =>
      match r.hospital with
      | some hid => some (.hospital hid)
      | none => none

/-- Rank.save (`our_service/models.py` lines 311-334): insert the row,
then recompute the target's average. -/
def rank_save (db : DB) (r : Rank) : Option DB :=
  let db1 : DB := { db with ranks := db.ranks ++ [r] }
  match refTarget r with
  | some tgt => recompute db1 tgt
  | none => none

/-- Number of Rank rows matching the uniqueness query of
RankViewSet.perform_create (author plus the target reference drawn from
the path): Rank.objects.get succeeds on exactly one. -/
def dupCount (ranks : List Rank) (user : Nat) (tgt : Target) : Nat :=
  (ranks.filter (fun r => r.author == user && matchesTarget r tgt)).length

/-- The row serializer.save(author=..., service=.../hospital=...) builds. -/
def newRank (user : Nat) (tgt : Target) (v : Int) : Rank :=
  match tgt with
  | .service sid => ⟨user, some sid, none, v⟩
  | .hospital hid => ⟨user, none, some hid, v⟩

/-- The rank-create request flow: serializer validation of value (the two
model validators, bounds 0 and 10), get_object_or_404 on the target, the
duplicate check of RankViewSet.perform_create (`api/views.py` lines
116-131), then Rank.save.  The unreachable branch covers rank_save's
`none`, impossible here because newRank always carries the checked
target. -/
def create_rank (db : DB) (user : Nat) (tgt : Target) (v : Int) : Except String DB :=
  if v < 0 then .error "Rate can not be less than 0."
  else if 10 < v then .error "Rate can not be more than 10"
  else if ¬ targetExists db tgt then .error "404 Not Found"
  else if dupCount db.ranks user tgt = 0 then
    match rank_save db (newRank user tgt v) with
    | some db1 => .ok db1
    | none => .error "unreachable"
  else if dupCount db.ranks user tgt = 1 then .error "You already ranked."
  else .error "MultipleObjectsReturned"

/-- Database state after a rank-create request: the new state on success,
the original state when the request was rejected. -/
def create_rank_result (db : DB) (user : Nat) (tgt : Target) (v : Int) : DB :=
  match create_rank db user tgt v with
  | .ok db1 => db1
  | .error _ => db

/-- Fold of create_rank over a list of (author, value) requests for one
target; stops at the first error. -/
def createAll (db : DB) (tgt : Target) : List (Nat × Int) → Except String DB
  | [] => .ok db
  | p :: rest =>
      match create_rank db p.1 tgt p.2 with
      | .ok db1 => createAll db1 tgt rest
      | .error e => .error e

/-- Deletion of a Rank row.  Rank overrides save but not delete, and no
signal handler exists, so DRF perform_destroy -> instance.delete() only
removes the row; nothing else runs. -/
def rank_delete (db : DB) (r : Rank) : DB :=
  { db with ranks := db.ranks.erase r }

/-- Rank.clean_fields (`our_service/models.py` lines 294-309): the base
validations (value bounds, then the either/or target check), then the
uniqueness query over (author, service, hospital); one match raises the
already-ranked error, several propagate MultipleObjectsReturned. -/
def rank_clean_fields (db : DB) (r : Rank) : Except String Unit :=
  if r.value < 0 then .error "Rate can not be less than 0."
  else if 10 < r.value then .error "Rate can not be more than 10"
  else
    match commentRank_clean_fields r.service r.hospital with
    | .error e => .error e
    | .ok _ =>
        match (db.ranks.filter (fun x =>
            x.author == r.author && x.service == r.service && x.hospital == r.hospital)).length with
        | 0 => .ok ()
        | 1 => .error "You already ranked."
        | _ => .error "MultipleObjectsReturned"

/-- C3: with both bounds present, parsed, and valid (bound_min >= 1 and
bound_min <= bound_max), the price filter returns exactly the services
whose fixed price (price != 0) lies in the bound or whose range anchor
(max_price != 0) lies in the bound. -/
theorem filter_selects_price_or_max_anchor
    (queryset : List Service) (mn mx : String) (minB maxB : Int)
    (hmn : pyInt mn = some minB) (hmx : pyInt mx = some maxB)
    (h1 : 1 ≤ minB) (h2 : minB ≤ maxB) :
    filter_queryset (some mn) (some mx) queryset =
      .ok (queryset.filter (fun s =>
        ((s.price ≠ 0 ∧ (minB : ℚ) ≤ s.price ∧ s.price ≤ (maxB : ℚ)) ∨
         (s.max_price ≠ 0 ∧ (minB : ℚ) ≤ s.max_price ∧ s.max_price ≤ (maxB : ℚ)) : Prop))) := by
  simp only [filter_queryset, hmn, hmx]
  have hlt : ¬ (minB < 1 || maxB < minB) = true := by
    simp only [Bool.or_eq_true, decide_eq_true_eq, not_or]
    omega
  rw [if_neg hlt]
  congr 1
  apply List.filter_congr
  intro s _
  simp [priceMatch, Bool.and_assoc]

/-- C3 witness: the spec example — bound [40,60] selects both A and B, and
bound [70,80] selects neither. -/
theorem filter_selects_witness :
    pyInt "40" = some 40 ∧ pyInt "60" = some 60 ∧
    filter_queryset (some "40") (some "60") [serviceA, serviceB] = .ok [serviceA, serviceB] ∧
    filter_queryset (some "70") (some "80") [serviceA, serviceB] = .ok [] := by
  refine ⟨by decide, by decide, ?_, ?_⟩
  · rw [filter_selects_price_or_max_anchor [serviceA, serviceB] "40" "60" 40 60
      (by decide) (by decide) (by decide) (by decide)]
    rfl
  · rw [filter_selects_price_or_max_anchor [serviceA, serviceB] "70" "80" 70 80
      (by decide) (by decide) (by decide) (by decide)]
    rfl

/-- C6: the filter is the identity whenever either bound is absent, and
also (after integer conversion) whenever bound_min < 1 or
bound_max < bound_min. -/
theorem filter_noop_on_missing_or_invalid_bounds (queryset : List Service) :
    (∀ mx, filter_queryset none mx queryset = .ok queryset) ∧
    (∀ mn, filter_queryset mn none queryset = .ok queryset) ∧
    (∀ mn mx minB maxB, pyInt mn = some minB → pyInt mx = some maxB →
      minB < 1 ∨ maxB < minB →
      filter_queryset (some mn) (some mx) queryset = .ok queryset) := by
  refine ⟨fun mx => ?_, fun mn => ?_, fun mn mx minB maxB hmn hmx hinv => ?_⟩
  · cases mx <;> rfl
  · cases mn <;> rfl
  · simp only [filter_queryset, hmn, hmx]
    have : (minB < 1 || maxB < minB) = true := by
      simp only [Bool.or_eq_true, decide_eq_true_eq]
      omega
    rw [if_pos this]

/-- C6 witness: the spec example bound_min=0 (bound_min < 1) is a no-op, as
are a missing min bound and a missing max bound. -/
theorem filter_noop_witness :
    pyInt "0" = some 0 ∧
    filter_queryset (some "0") (some "10") [serviceA] = .ok [serviceA] ∧
    filter_queryset none (some "10") [serviceA] = .ok [serviceA] ∧
    filter_queryset (some "5") none [serviceA] = .ok [serviceA] := by
  refine ⟨by decide, ?_, ?_, ?_⟩
  · exact (filter_noop_on_missing_or_invalid_bounds [serviceA]).2.2 "0" "10" 0 10
      (by decide) (by decide) (Or.inl (by decide))
  · exact (filter_noop_on_missing_or_invalid_bounds [serviceA]).1 (some "10")
  · exact (filter_noop_on_missing_or_invalid_bounds [serviceA]).2.1 (some "5")

/-- C10: when both query parameters are present but at least one is not a
decimal integer string, the filter raises the int() conversion error
instead of returning a queryset. -/
theorem filter_raises_on_nonnumeric_bound
    (queryset : List Service) (mn mx : String)
    (h : pyInt mn = none ∨ pyInt mx = none) :
    ∃ m, filter_queryset (some mn) (some mx) queryset = .error m := by
  rcases h with h | h
  · exact ⟨"invalid literal for int() with base 10: " ++ mn, by simp [filter_queryset, h]⟩
  · cases hmn : pyInt mn with
    | none =>
        exact ⟨"invalid literal for int() with base 10: " ++ mn, by simp [filter_queryset, hmn]⟩
    | some minB =>
        exact ⟨"invalid literal for int() with base 10: " ++ mx, by simp [filter_queryset, hmn, h]⟩

/-- C10 witness: the non-numeric min bound "abc" makes the filter raise. -/
theorem filter_raises_witness :
    pyInt "abc" = none ∧
    ∃ m, filter_queryset (some "abc") (some "10") ([] : List Service) = .error m :=
  ⟨by decide, filter_raises_on_nonnumeric_bound [] "abc" "10" (Or.inl (by decide))⟩

lemma priceFieldErrors_eq_none (price min_price max_price : ℚ)
    (hp : inBounds price) (hmn : inBounds min_price) (hmx : inBounds max_price) :
    priceFieldErrors price min_price max_price = none := by
  obtain ⟨hp1, hp2⟩ := hp
  obtain ⟨hmn1, hmn2⟩ := hmn
  obtain ⟨hmx1, hmx2⟩ := hmx
  unfold priceFieldErrors
  rw [if_neg (by linarith), if_neg (by linarith), if_neg (by linarith),
    if_neg (by linarith), if_neg (by linarith), if_neg (by linarith)]

lemma priceFieldErrors_none_inBounds (price min_price max_price : ℚ)
    (h : priceFieldErrors price min_price max_price = none) :
    inBounds price ∧ inBounds min_price ∧ inBounds max_price := by
  unfold priceFieldErrors at h
  split_ifs at h
  exact ⟨⟨by linarith, by linarith⟩, ⟨by linarith, by linarith⟩, by linarith, by linarith⟩

lemma priceFieldErrors_some_msg (price min_price max_price : ℚ) (m : String)
    (h : priceFieldErrors price min_price max_price = some m) :
    m = priceMinMsg ∨ m = priceMaxMsg := by
  unfold priceFieldErrors at h
  split_ifs at h <;> simp only [Option.some.injEq] at h <;> simp [← h]

/-- C4: over in-bounds price fields, Service.clean_fields rejects the
all-zero combination, rejects price == 0 with max_price < min_price,
rejects price != 0 with a nonzero range, and accepts everything else. -/
theorem service_clean_fields_cases (price min_price max_price : ℚ)
    (hp : inBounds price) (hmn : inBounds min_price) (hmx : inBounds max_price) :
    (price = 0 ∧ min_price = 0 ∧ max_price = 0 →
      service_clean_fields price min_price max_price = .error serviceNoPriceMsg) ∧
    (price = 0 ∧ max_price < min_price →
      service_clean_fields price min_price max_price = .error serviceMaxLtMinMsg) ∧
    (price ≠ 0 ∧ (max_price ≠ 0 ∨ 0 < min_price) →
      service_clean_fields price min_price max_price = .error serviceCoupleMsg) ∧
    (¬(price = 0 ∧ min_price = 0 ∧ max_price = 0) →
      ¬(price = 0 ∧ max_price < min_price) →
      ¬(price ≠ 0 ∧ (max_price ≠ 0 ∨ 0 < min_price)) →
      service_clean_fields price min_price max_price = .ok ()) := by
  have hfe := priceFieldErrors_eq_none price min_price max_price hp hmn hmx
  simp only [service_clean_fields, hfe]
  refine ⟨fun h0 => ?_, fun h1 => ?_, fun h2 => ?_, fun h3 h4 h5 => ?_⟩
  · rw [if_pos h0]
  · obtain ⟨hpz, hlt⟩ := h1
    have hnz : ¬(price = 0 ∧ min_price = 0 ∧ max_price = 0) := by
      rintro ⟨-, rfl, rfl⟩
      exact absurd hlt (lt_irrefl 0)
    rw [if_neg hnz, if_pos hpz, if_pos hlt]
  · obtain ⟨hpn, hrange⟩ := h2
    have hnz : ¬(price = 0 ∧ min_price = 0 ∧ max_price = 0) := fun h => hpn h.1
    rw [if_neg hnz, if_neg hpn, if_pos hrange]
  · by_cases hpz : price = 0
    · have hnl : ¬ max_price < min_price := fun hl => h4 ⟨hpz, hl⟩
      rw [if_neg h3, if_pos hpz, if_neg hnl]
    · have hnr : ¬(max_price ≠ 0 ∨ 0 < min_price) := fun hr => h5 ⟨hpz, hr⟩
      rw [if_neg h3, if_neg hpz, if_neg hnr]

/-- C4 witness: all four cases at concrete in-bounds price triples. -/
theorem service_clean_fields_cases_witness :
    service_clean_fields 0 0 0 = .error serviceNoPriceMsg ∧
    service_clean_fields 0 30 20 = .error serviceMaxLtMinMsg ∧
    service_clean_fields 50 0 10 = .error serviceCoupleMsg ∧
    service_clean_fields 50 0 0 = .ok () := by
  have hb1 : inBounds 0 := ⟨by norm_num, by norm_num⟩
  have hb2 : inBounds 30 := ⟨by norm_num, by norm_num⟩
  have hb3 : inBounds 20 := ⟨by norm_num, by norm_num⟩
  have hb4 : inBounds 50 := ⟨by norm_num, by norm_num⟩
  have hb5 : inBounds 10 := ⟨by norm_num, by norm_num⟩
  refine ⟨(service_clean_fields_cases 0 0 0 hb1 hb1 hb1).1 ⟨rfl, rfl, rfl⟩,
    (service_clean_fields_cases 0 30 20 hb1 hb2 hb3).2.1 ⟨rfl, by norm_num⟩,
    (service_clean_fields_cases 50 0 10 hb4 hb1 hb5).2.2.1 ⟨by norm_num, Or.inl (by norm_num)⟩,
    (service_clean_fields_cases 50 0 0 hb4 hb1 hb1).2.2.2 ?_ ?_ ?_⟩
  · rintro ⟨h, -⟩; norm_num at h
  · rintro ⟨h, -⟩; norm_num at h
  · rintro ⟨-, h | h⟩ <;> norm_num at h

/-- C7: any out-of-bounds price field makes Service.clean_fields fail with
a bounds-validator message, never with the range or exclusivity
messages. -/
theorem service_clean_fields_bounds_first (price min_price max_price : ℚ)
    (h : ¬(inBounds price ∧ inBounds min_price ∧ inBounds max_price)) :
    ∃ m, service_clean_fields price min_price max_price = .error m ∧
      (m = priceMinMsg ∨ m = priceMaxMsg) ∧
      m ≠ serviceNoPriceMsg ∧ m ≠ serviceMaxLtMinMsg ∧ m ≠ serviceCoupleMsg := by
  cases hfe : priceFieldErrors price min_price max_price with
  | none => exact absurd (priceFieldErrors_none_inBounds price min_price max_price hfe) h
  | some m =>
      refine ⟨m, by simp [service_clean_fields, hfe], ?_, ?_⟩
      · exact priceFieldErrors_some_msg price min_price max_price m hfe
      · rcases priceFieldErrors_some_msg price min_price max_price m hfe with rfl | rfl <;>
          exact ⟨by decide, by decide, by decide⟩

/-- C7 witness: a negative price is reported by the bounds validator. -/
theorem service_clean_fields_bounds_first_witness :
    ∃ m, service_clean_fields (-1) 0 0 = .error m ∧
      (m = priceMinMsg ∨ m = priceMaxMsg) ∧
      m ≠ serviceNoPriceMsg ∧ m ≠ serviceMaxLtMinMsg ∧ m ≠ serviceCoupleMsg :=
  service_clean_fields_bounds_first (-1) 0 0 (by rintro ⟨⟨h, -⟩, -⟩; norm_num at h)

/-- C5: shared Comment/Rank validation fails with the neither-set message
when both references are absent, fails with the both-set message when both
are present, and every pair that passes has exactly one reference set. -/
theorem commentRank_clean_fields_exactly_one (service hospital : Option Nat) :
    (service = none ∧ hospital = none →
      commentRank_clean_fields service hospital = .error neitherMsg) ∧
    (service ≠ none ∧ hospital ≠ none →
      commentRank_clean_fields service hospital = .error bothMsg) ∧
    (commentRank_clean_fields service hospital = .ok () →
      (service ≠ none ∧ hospital = none) ∨ (service = none ∧ hospital ≠ none)) := by
  cases service <;> cases hospital <;>
    simp [commentRank_clean_fields, neitherMsg, bothMsg]

/-- C5 witness: both-absent and both-present are rejected; one-set passes
and indeed has exactly the service reference. -/
theorem commentRank_clean_fields_witness :
    commentRank_clean_fields none none = .error neitherMsg ∧
    commentRank_clean_fields (some 1) (some 2) = .error bothMsg ∧
    ((some 1 : Option Nat) ≠ none ∧ (none : Option Nat) = none ∨
      (some 1 : Option Nat) = none ∧ (none : Option Nat) ≠ none) := by
  refine ⟨(commentRank_clean_fields_exactly_one none none).1 ⟨rfl, rfl⟩,
    (commentRank_clean_fields_exactly_one (some 1) (some 2)).2.1
      ⟨Option.some_ne_none 1, Option.some_ne_none 2⟩,
    (commentRank_clean_fields_exactly_one (some 1) none).2.2 rfl⟩

lemma writeAvg_ranks (db : DB) (tgt : Target) (avg : ℚ) :
    (writeAvg db tgt avg).ranks = db.ranks := by
  cases tgt <;> rfl

lemma targetExists_setRanks (db : DB) (rs : List Rank) (tgt : Target) :
    targetExists { db with ranks := rs } tgt = targetExists db tgt := by
  cases tgt <;> rfl

lemma targetAverage_setRanks (db : DB) (rs : List Rank) (tgt : Target) :
    targetAverage { db with ranks := rs } tgt = targetAverage db tgt := by
  cases tgt <;> rfl

lemma recomputeValue_congr (db1 db2 : DB) (tgt : Target) (h : db1.ranks = db2.ranks) :
    recomputeValue db1 tgt = recomputeValue db2 tgt := by
  unfold recomputeValue targetRanks
  rw [h]

lemma writeAvg_targetExists (db : DB) (tgt : Target) (avg : ℚ) (tgt' : Target) :
    targetExists (writeAvg db tgt avg) tgt' = targetExists db tgt' := by
  cases tgt <;> cases tgt' <;>
    simp only [writeAvg, targetExists, List.any_map] <;>
    first
      | rfl
      | (congr 1; funext x; simp only [Function.comp_apply]; split <;> rfl)

lemma find?_service_update (l : List Service) (sid : Nat) (avg : ℚ)
    (h : l.any (fun s => s.id == sid) = true) :
    ((l.map (fun s => if s.id == sid then { s with average_rank := avg } else s)).find?
        (fun s => s.id == sid)).map Service.average_rank = some avg := by
  induction l with
  | nil => simp at h
  | cons s l ih =>
      by_cases hs : s.id = sid
      · simp [List.find?, hs]
      · have hb : (s.id == sid) = false := by simp [hs]
        simp only [List.any_cons, hb, Bool.false_or] at h
        simp only [List.map_cons, hb, Bool.false_eq_true, if_false, List.find?, hb]
        exact ih h

lemma find?_hospital_update (l : List Hospital) (hid : Nat) (avg : ℚ)
    (h : l.any (fun x => x.id == hid) = true) :
    ((l.map (fun x => if x.id == hid then { x with average_rank := avg } else x)).find?
        (fun x => x.id == hid)).map Hospital.average_rank = some avg := by
  induction l with
  | nil => simp at h
  | cons x l ih =>
      by_cases hx : x.id = hid
      · simp [List.find?, hx]
      · have hb : (x.id == hid) = false := by simp [hx]
        simp only [List.any_cons, hb, Bool.false_or] at h
        simp only [List.map_cons, hb, Bool.false_eq_true, if_false, List.find?, hb]
        exact ih h

lemma targetAverage_writeAvg (db : DB) (tgt : Target) (avg : ℚ)
    (h : targetExists db tgt = true) :
    targetAverage (writeAvg db tgt avg) tgt = some avg := by
  cases tgt with
  | service sid => exact find?_service_update db.services sid avg h
  | hospital hid => exact find?_hospital_update db.hospitals hid avg h

lemma matchesTarget_newRank (u : Nat) (tgt : Target) (v : Int) :
    matchesTarget (newRank u tgt v) tgt = true := by
  cases tgt <;> simp [newRank, matchesTarget]

lemma refTarget_newRank (u : Nat) (tgt : Target) (v : Int) :
    refTarget (newRank u tgt v) = some tgt := by
  cases tgt <;> rfl

lemma newRank_author (u : Nat) (tgt : Target) (v : Int) :
    (newRank u tgt v).author = u := by
  cases tgt <;> rfl

lemma newRank_value (u : Nat) (tgt : Target) (v : Int) :
    (newRank u tgt v).value = v := by
  cases tgt <;> rfl

lemma dupCount_append (l1 l2 : List Rank) (u : Nat) (tgt : Target) :
    dupCount (l1 ++ l2) u tgt = dupCount l1 u tgt + dupCount l2 u tgt := by
  simp [dupCount, List.filter_append]

lemma dupCount_single_newRank (u u2 : Nat) (tgt : Target) (v : Int) :
    dupCount [newRank u tgt v] u2 tgt = if u = u2 then 1 else 0 := by
  by_cases h : u = u2
  · simp [dupCount, List.filter, newRank_author, matchesTarget_newRank, h]
  · have hb : (u == u2) = false := beq_false_of_ne h
    simp [dupCount, List.filter, newRank_author, matchesTarget_newRank, hb, h]

lemma dupCount_eq_zero_of_targetRanks_nil (db : DB) (tgt : Target) (u : Nat)
    (h : targetRanks db tgt = []) : dupCount db.ranks u tgt = 0 := by
  rw [targetRanks, List.filter_eq_nil_iff] at h
  rw [dupCount, List.length_eq_zero, List.filter_eq_nil_iff]
  intro r hr
  simp [h r hr]

lemma rank_save_newRank (db : DB) (u : Nat) (tgt : Target) (v : Int)
    (hex : targetExists db tgt = true) :
    rank_save db (newRank u tgt v) =
      some (writeAvg { db with ranks := db.ranks ++ [newRank u tgt v] } tgt
            (recomputeValue { db with ranks := db.ranks ++ [newRank u tgt v] } tgt)) := by
  simp only [rank_save, refTarget_newRank, recompute, targetExists_setRanks, hex, if_true]

lemma create_rank_ok (db : DB) (u : Nat) (tgt : Target) (v : Int)
    (hv0 : 0 ≤ v) (hv10 : v ≤ 10) (hex : targetExists db tgt = true)
    (hdup : dupCount db.ranks u tgt = 0) :
    create_rank db u tgt v =
      .ok (writeAvg { db with ranks := db.ranks ++ [newRank u tgt v] } tgt
            (recomputeValue { db with ranks := db.ranks ++ [newRank u tgt v] } tgt)) := by
  unfold create_rank
  rw [if_neg (by omega), if_neg (by omega), if_neg (by simp [hex]), if_pos hdup,
    rank_save_newRank db u tgt v hex]

lemma createAll_spec (tgt : Target) (pairs : List (Nat × Int)) :
    ∀ db : DB, targetExists db tgt = true →
    (∀ p ∈ pairs, 0 ≤ p.2 ∧ p.2 ≤ 10) →
    (∀ p ∈ pairs, dupCount db.ranks p.1 tgt = 0) →
    (pairs.map Prod.fst).Nodup →
    ∃ db1, createAll db tgt pairs = .ok db1
      ∧ db1.ranks = db.ranks ++ pairs.map (fun p => newRank p.1 tgt p.2)
      ∧ targetExists db1 tgt = true
      ∧ (pairs = [] → db1 = db)
      ∧ (pairs ≠ [] → targetAverage db1 tgt = some (recomputeValue db1 tgt)) := by
  induction pairs with
  | nil =>
      intro db hex _ _ _
      exact ⟨db, rfl, by simp, hex, fun _ => rfl, fun h => absurd rfl h⟩
  | cons p rest ih =>
      intro db hex hv hdup hnodup
      obtain ⟨u, v⟩ := p
      have hvu := hv (u, v) (List.mem_cons_self _ _)
      have hcr := create_rank_ok db u tgt v hvu.1 hvu.2 hex (hdup (u, v) (List.mem_cons_self _ _))
      set dbI : DB := { db with ranks := db.ranks ++ [newRank u tgt v] } with hdbI
      set dbS : DB := writeAvg dbI tgt (recomputeValue dbI tgt) with hdbS
      have hranksS : dbS.ranks = db.ranks ++ [newRank u tgt v] := writeAvg_ranks dbI tgt _
      have hexI : targetExists dbI tgt = true := by
        rw [hdbI, targetExists_setRanks]; exact hex
      have hexS : targetExists dbS tgt = true := by
        rw [hdbS, writeAvg_targetExists]; exact hexI
      have hnd : u ∉ rest.map Prod.fst ∧ (rest.map Prod.fst).Nodup := by
        rw [List.map_cons, List.nodup_cons] at hnodup
        exact hnodup
      have hufresh : u ∉ rest.map Prod.fst := hnd.1
      have hdupS : ∀ q ∈ rest, dupCount dbS.ranks q.1 tgt = 0 := by
        intro q hq
        rw [hranksS, dupCount_append, dupCount_single_newRank]
        have h0 : dupCount db.ranks q.1 tgt = 0 := hdup q (List.mem_cons_of_mem _ hq)
        have hne : u ≠ q.1 := fun he => hufresh (he ▸ List.mem_map_of_mem Prod.fst hq)
        rw [if_neg hne, h0]
      have hvS : ∀ q ∈ rest, 0 ≤ q.2 ∧ q.2 ≤ 10 := fun q hq => hv q (List.mem_cons_of_mem _ hq)
      have hnodupS : (rest.map Prod.fst).Nodup := hnd.2
      obtain ⟨db1, hca, hranks1, hex1, hnil1, havg1⟩ := ih dbS hexS hvS hdupS hnodupS
      refine ⟨db1, ?_, ?_, hex1, fun h => (List.cons_ne_nil _ _ h).elim, fun _ => ?_⟩
      · simp only [createAll, hcr]
        exact hca
      · rw [hranks1, hranksS, List.append_assoc]
        simp
      · by_cases hr : rest = []
        · subst hr
          rw [hnil1 rfl]
          rw [hdbS, targetAverage_writeAvg dbI tgt _ hexI]
          congr 1
          exact recomputeValue_congr dbI dbS tgt (writeAvg_ranks dbI tgt _).symm
        · exact havg1 hr

lemma roundHalfEven_intCast (n : ℤ) : roundHalfEven (n : ℚ) = n := by
  norm_num [roundHalfEven, Int.floor_intCast]

lemma pyRound1_eq_of_mul_ten (q : ℚ) (m : ℤ) (h : q * 10 = (m : ℚ)) :
    pyRound1 q = (m : ℚ) / 10 := by
  unfold pyRound1
  rw [h, roundHalfEven_intCast]

lemma pyRound1_intCast (n : ℤ) : pyRound1 (n : ℚ) = (n : ℚ) := by
  rw [pyRound1_eq_of_mul_ten (n : ℚ) (n * 10) (by push_cast; ring)]
  push_cast
  field_simp

lemma recomputeValue_single (db : DB) (tgt : Target) (r : Rank)
    (h : targetRanks db tgt = [r]) :
    recomputeValue db tgt = pyRound1 ((r.value : ℤ) : ℚ) := by
  simp [recomputeValue, h]

/-- C1 counterexample: on a hospital with a single rank of value 5 the
stored average is 5; deleting that rank (Rank has no delete hook) leaves
the target with no ranks but average_rank still 5, not 0.0 as the claim
states. -/
theorem rank_delete_keeps_stale_average :
    create_rank ⟨[], [⟨0, 0⟩], []⟩ 1 (.hospital 0) 5 =
      .ok ⟨[], [⟨0, 5⟩], [⟨1, none, some 0, 5⟩]⟩ ∧
    rank_delete ⟨[], [⟨0, 5⟩], [⟨1, none, some 0, 5⟩]⟩ ⟨1, none, some 0, 5⟩ =
      ⟨[], [⟨0, 5⟩], []⟩ ∧
    targetRanks ⟨[], [⟨0, 5⟩], []⟩ (.hospital 0) = [] ∧
    targetAverage ⟨[], [⟨0, 5⟩], []⟩ (.hospital 0) = some 5 ∧
    (5 : ℚ) ≠ 0 := by
  refine ⟨?_, rfl, rfl, rfl, by norm_num⟩
  rw [create_rank_ok ⟨[], [⟨0, 0⟩], []⟩ 1 (.hospital 0) 5 (by norm_num) (by norm_num) rfl rfl]
  have hrv : recomputeValue ⟨[], [⟨0, 0⟩], [⟨1, none, some 0, 5⟩]⟩ (.hospital 0) = 5 := by
    rw [recomputeValue_single ⟨[], [⟨0, 0⟩], [⟨1, none, some 0, 5⟩]⟩ (.hospital 0)
      ⟨1, none, some 0, 5⟩ rfl]
    have h5 : ((⟨1, none, some 0, 5⟩ : Rank).value : ℚ) = ((5 : ℤ) : ℚ) := rfl
    rw [h5, pyRound1_intCast]
    norm_num
  show Except.ok (writeAvg ⟨[], [⟨0, 0⟩], [⟨1, none, some 0, 5⟩]⟩ (.hospital 0)
      (recomputeValue ⟨[], [⟨0, 0⟩], [⟨1, none, some 0, 5⟩]⟩ (.hospital 0))) = _
  rw [hrv]
  rfl

/-- C1 (amended): after N rank creations with in-range values by distinct
authors on a target with no prior ranks, the target's average_rank is
round(sum/N, 1); the recompute of an empty rank set yields 0.0; but rank
deletion triggers no recompute, so deleting rows never changes the stored
average_rank. -/
theorem rank_creations_set_rounded_average (db : DB) (tgt : Target)
    (pairs : List (Nat × Int))
    (hex : targetExists db tgt = true)
    (hempty : targetRanks db tgt = [])
    (hv : ∀ p ∈ pairs, 0 ≤ p.2 ∧ p.2 ≤ 10)
    (hnodup : (pairs.map Prod.fst).Nodup)
    (hne : pairs ≠ []) :
    ∃ db1, createAll db tgt pairs = .ok db1
      ∧ targetAverage db1 tgt =
          some (pyRound1 ((((pairs.map fun p => p.2).sum : ℤ) : ℚ) / pairs.length))
      ∧ (∀ r, targetAverage (rank_delete db1 r) tgt = targetAverage db1 tgt)
      ∧ (∀ db2 : DB, targetRanks db2 tgt = [] → recomputeValue db2 tgt = 0) := by
  have hdup : ∀ p ∈ pairs, dupCount db.ranks p.1 tgt = 0 :=
    fun p _ => dupCount_eq_zero_of_targetRanks_nil db tgt p.1 hempty
  obtain ⟨db1, hca, hranks1, hex1, -, havg1⟩ := createAll_spec tgt pairs db hex hv hdup hnodup
  have hempty2 : db.ranks.filter (fun r => matchesTarget r tgt) = [] := hempty
  have htr : targetRanks db1 tgt = pairs.map (fun p => newRank p.1 tgt p.2) := by
    unfold targetRanks
    rw [hranks1, List.filter_append, hempty2, List.nil_append, List.filter_eq_self]
    intro a ha
    obtain ⟨p, -, rfl⟩ := List.mem_map.mp ha
    exact matchesTarget_newRank p.1 tgt p.2
  have hnz : pairs.length ≠ 0 := fun h => hne (List.length_eq_zero.mp h)
  have hrv : recomputeValue db1 tgt =
      pyRound1 ((((pairs.map fun p => p.2).sum : ℤ) : ℚ) / pairs.length) := by
    have hmap : pairs.map (Rank.value ∘ fun p => newRank p.1 tgt p.2) =
        pairs.map (fun p => p.2) :=
      List.map_congr_left (fun p _ => newRank_value p.1 tgt p.2)
    simp only [recomputeValue, htr, List.length_map, List.map_map, hmap]
    rw [if_pos hnz]
  refine ⟨db1, hca, by rw [havg1 hne, hrv], fun r => ?_, fun db2 h2 => ?_⟩
  · simp only [rank_delete]
    exact targetAverage_setRanks db1 _ tgt
  · simp [recomputeValue, h2]

/-- C1 witness: two ranks 5 and 6 by authors 1 and 2 on hospital 0 leave
average_rank = round(11/2, 1) = 5.5. -/
theorem rank_creations_set_rounded_average_witness :
    ∃ db1, createAll ⟨[], [⟨0, 0⟩], []⟩ (.hospital 0) [(1, 5), (2, 6)] = .ok db1 ∧
      targetAverage db1 (.hospital 0) = some (11/2) := by
  obtain ⟨db1, hca, havg, -, -⟩ :=
    rank_creations_set_rounded_average ⟨[], [⟨0, 0⟩], []⟩ (.hospital 0) [(1, 5), (2, 6)]
      (by decide) (by decide) (by decide) (by decide) (by decide)
  refine ⟨db1, hca, ?_⟩
  rw [havg]
  congr 1
  have harg : ((([((1 : ℕ), (5 : ℤ)), (2, 6)].map fun p => p.2).sum : ℤ) : ℚ) /
      (([((1 : ℕ), (5 : ℤ)), (2, 6)].length : ℕ) : ℚ) = 11 / 2 := by
    norm_num
  rw [harg, pyRound1_eq_of_mul_ten (11 / 2) 55 (by norm_num)]
  norm_num

/-- C2: a rank-create request by an author who already has a rank on the
target is rejected by the duplicate check with the already-ranked message;
the save (and with it the recompute) never runs, so the database state is
unchanged and so is the target's average_rank. -/
theorem duplicate_rank_rejected (db : DB) (u : Nat) (tgt : Target) (v : Int)
    (hv0 : 0 ≤ v) (hv10 : v ≤ 10) (hex : targetExists db tgt = true)
    (hdup : dupCount db.ranks u tgt = 1) :
    create_rank db u tgt v = .error "You already ranked." ∧
    create_rank_result db u tgt v = db ∧
    targetAverage (create_rank_result db u tgt v) tgt = targetAverage db tgt := by
  have herr : create_rank db u tgt v = .error "You already ranked." := by
    unfold create_rank
    rw [if_neg (by omega), if_neg (by omega), if_neg (by simp [hex]), if_neg (by omega),
      if_pos hdup]
  refine ⟨herr, ?_, ?_⟩ <;> simp [create_rank_result, herr]

/-- C2 witness: a second rank by author 1 on hospital 0 is rejected and
the stored average 5 is untouched. -/
theorem duplicate_rank_rejected_witness :
    create_rank ⟨[], [⟨0, 5⟩], [⟨1, none, some 0, 5⟩]⟩ 1 (.hospital 0) 7 =
      .error "You already ranked." ∧
    create_rank_result ⟨[], [⟨0, 5⟩], [⟨1, none, some 0, 5⟩]⟩ 1 (.hospital 0) 7 =
      ⟨[], [⟨0, 5⟩], [⟨1, none, some 0, 5⟩]⟩ :=
  have h := duplicate_rank_rejected ⟨[], [⟨0, 5⟩], [⟨1, none, some 0, 5⟩]⟩ 1 (.hospital 0) 7
    (by norm_num) (by norm_num) rfl rfl
  ⟨h.1, h.2.1⟩

/-- C8: a second recompute over an unchanged rank set succeeds and leaves
the target's average_rank at the value the first recompute stored. -/
theorem recompute_idempotent (db db1 : DB) (tgt : Target)
    (h : recompute db tgt = some db1) :
    ∃ db2, recompute db1 tgt = some db2 ∧
      targetAverage db2 tgt = targetAverage db1 tgt := by
  unfold recompute at h
  split_ifs at h with hex
  obtain rfl : writeAvg db tgt (recomputeValue db tgt) = db1 := Option.some.inj h
  have hex1 : targetExists (writeAvg db tgt (recomputeValue db tgt)) tgt = true := by
    rw [writeAvg_targetExists]; exact hex
  set db1 := writeAvg db tgt (recomputeValue db tgt) with hdb1
  refine ⟨writeAvg db1 tgt (recomputeValue db1 tgt), by simp [recompute, hex1], ?_⟩
  rw [targetAverage_writeAvg db1 tgt _ hex1, hdb1, targetAverage_writeAvg db tgt _ hex]
  congr 1
  exact recomputeValue_congr db1 db tgt (writeAvg_ranks db tgt _)

/-- C8 witness: recomputing hospital 0 (one rank of value 7) once stores 7;
recomputing again succeeds and keeps the average at 7. -/
theorem recompute_idempotent_witness :
    recompute ⟨[], [⟨0, 0⟩], [⟨1, none, some 0, 7⟩]⟩ (.hospital 0) =
      some ⟨[], [⟨0, 7⟩], [⟨1, none, some 0, 7⟩]⟩ ∧
    ∃ db2, recompute ⟨[], [⟨0, 7⟩], [⟨1, none, some 0, 7⟩]⟩ (.hospital 0) = some db2 ∧
      targetAverage db2 (.hospital 0) =
        targetAverage ⟨[], [⟨0, 7⟩], [⟨1, none, some 0, 7⟩]⟩ (.hospital 0) := by
  have hrv : recomputeValue ⟨[], [⟨0, 0⟩], [⟨1, none, some 0, 7⟩]⟩ (.hospital 0) = 7 := by
    rw [recomputeValue_single ⟨[], [⟨0, 0⟩], [⟨1, none, some 0, 7⟩]⟩ (.hospital 0)
      ⟨1, none, some 0, 7⟩ rfl]
    have h7 : ((⟨1, none, some 0, 7⟩ : Rank).value : ℚ) = ((7 : ℤ) : ℚ) := rfl
    rw [h7, pyRound1_intCast]
    norm_num
  have h1 : recompute ⟨[], [⟨0, 0⟩], [⟨1, none, some 0, 7⟩]⟩ (.hospital 0) =
      some ⟨[], [⟨0, 7⟩], [⟨1, none, some 0, 7⟩]⟩ := by
    unfold recompute
    rw [if_pos (show targetExists ⟨[], [⟨0, 0⟩], [⟨1, none, some 0, 7⟩]⟩ (.hospital 0) = true
      from rfl), hrv]
    rfl
  exact ⟨h1, recompute_idempotent ⟨[], [⟨0, 0⟩], [⟨1, none, some 0, 7⟩]⟩
    ⟨[], [⟨0, 7⟩], [⟨1, none, some 0, 7⟩]⟩ (.hospital 0) h1⟩

/-- C9: a persisted Rank with valid fields never passes Rank.clean_fields
again: the uniqueness query finds the row itself (the single match on its
own (author, service, hospital) triple) and raises the already-ranked
error. -/
theorem persisted_rank_fails_model_validation (db : DB) (r : Rank)
    (_hmem : r ∈ db.ranks)
    (hv0 : 0 ≤ r.value) (hv10 : r.value ≤ 10)
    (hclean : commentRank_clean_fields r.service r.hospital = .ok ())
    (hself : (db.ranks.filter (fun x =>
        x.author == r.author && x.service == r.service && x.hospital == r.hospital)).length = 1) :
    rank_clean_fields db r = .error "You already ranked." := by
  unfold rank_clean_fields
  rw [if_neg (by omega), if_neg (by omega)]
  simp only [hclean, hself]

/-- C9 witness: the persisted rank by author 1 on hospital 0 fails its own
revalidation with the already-ranked error. -/
theorem persisted_rank_fails_model_validation_witness :
    rank_clean_fields ⟨[], [⟨0, 5⟩], [⟨1, none, some 0, 5⟩]⟩ ⟨1, none, some 0, 5⟩ =
      .error "You already ranked." :=
  persisted_rank_fails_model_validation ⟨[], [⟨0, 5⟩], [⟨1, none, some 0, 5⟩]⟩
    ⟨1, none, some 0, 5⟩ (by decide) (by norm_num) (by norm_num) rfl rfl

end HospitalTJ
